import Mathlib

/- Shallow embedding of smawe_tools/smawe_pyppeteer/smawe_pyppeteer_tool.py:
   the launch-argument construction done by PyppeteerRequest.__init__, the
   request() render sequence (viewport, anti-detection scripts, interception,
   navigation with the 30s timeout recovery, delay / wait_for / script, harvest,
   close), and the PyppeteerResponse accessors over the shared meta_data dict. -/

def infobarsArg : String := "--disable-infobars"

def maximizeArg : String := "--start-maximized"

def windowSizePre : String := "--window-size="

def commaStr : String := ","

def emptyStr : String := ""

/-- Python `args.remove(a)` with the ValueError swallowed by `try ... except
ValueError: pass`: drop the first occurrence of `a`, leave the list unchanged
when `a` is absent. -/
def removeFirst : List String → String → List String
  | [], _ => []
  | x :: xs, a => if x = a then xs else x :: removeFirst xs a

/-- Truthiness of an optional Python string: None and the empty string are
falsy, every other string is truthy. -/
def truthyStr (o : Option String) : Bool :=
  match o with
  | none => false
  | some s => !(s == emptyStr)

/-- The f-string building the window-size launch argument from window_width and
window_height (both documented as str in the source). -/
def windowSizeArg (w h : String) : String :=
  windowSizePre ++ (w ++ (commaStr ++ h))

/-- A string counts as a window-size argument when it starts with the
window-size option text. -/
def isWindowSizeArg (s : String) : Bool :=
  windowSizePre.data.isPrefixOf s.data

/-- The args normalization at the top of PyppeteerRequest.__init__: when the
caller supplied no args list a fresh singleton is used, otherwise
--disable-infobars is appended to the caller's list. -/
def baseArgs (args : Option (List String)) : List String :=
  match args with
  | none => [infobarsArg]
  | some l => l ++ [infobarsArg]

/-- The enabled_maximize step of PyppeteerRequest.__init__. -/
def maxArgs (base : List String) (enabled_maximize : Bool) : List String :=
  if enabled_maximize then base ++ [maximizeArg] else base

/-- The complete launch-argument construction of PyppeteerRequest.__init__:
append --disable-infobars, append --start-maximized when enabled_maximize,
and when window_width and window_height are both truthy append the window-size
argument and remove the first --start-maximized occurrence (if any). -/
def buildArgs (args : Option (List String)) (enabled_maximize : Bool)
    (window_width window_height : Option String) : List String :=
  if truthyStr window_width && truthyStr window_height then
    removeFirst
      (maxArgs (baseArgs args) enabled_maximize
        ++ [windowSizeArg (window_width.getD emptyStr) (window_height.getD emptyStr)])
      maximizeArg
  else maxArgs (baseArgs args) enabled_maximize

/-- The keyword arguments PyppeteerRequest.__init__ pops, with the defaults the
pops use. headless is modelled by its truthiness (kwargs.pop gives None, which
is falsy, when absent). -/
structure InitKwargs where
  headless : Bool := false
  path : Option String := none
  user_data_dir : Option String := none
  auto_close : Bool := true
  window_width : Option String := none
  window_height : Option String := none
  args : Option (List String) := none
  enabled_maximize : Bool := true
deriving DecidableEq

/-- The keyword arguments PyppeteerRequest.__init__ passes to
pyppeteer.launch. -/
structure LaunchOptions where
  headless : Bool
  executablePath : Option String
  args : List String
  userDataDir : Option String
  autoClose : Bool
deriving DecidableEq

/-- The launch configuration PyppeteerRequest.__init__ builds: auto_close is
forced to True when headless is truthy, and args is the normalized argument
list. -/
def PyppeteerRequest.initLaunch (k : InitKwargs) : LaunchOptions :=
  { headless := k.headless
    executablePath := k.path
    args := buildArgs k.args k.enabled_maximize k.window_width k.window_height
    userDataDir := k.user_data_dir
    autoClose := if k.headless then true else k.auto_close }

theorem dataAppend (s t : String) : (s ++ t).data = s.data ++ t.data := rfl

theorem isPrefixOf_append_self (l r : List Char) : l.isPrefixOf (l ++ r) = true := by
  induction l with
  | nil => simp [List.isPrefixOf]
  | cons a as ih => simp [List.isPrefixOf, ih]

theorem isWindowSizeArg_format (w h : String) :
    isWindowSizeArg (windowSizeArg w h) = true := by
  unfold isWindowSizeArg windowSizeArg
  rw [dataAppend]
  exact isPrefixOf_append_self _ _

theorem isWindowSizeArg_maximize : isWindowSizeArg maximizeArg = false := by decide

theorem isWindowSizeArg_infobars : isWindowSizeArg infobarsArg = false := by decide

theorem ne_of_ws {s t : String} (hs : isWindowSizeArg s = true)
    (ht : isWindowSizeArg t = false) : s ≠ t := by
  intro h
  rw [h, ht] at hs
  cases hs

theorem count_removeFirst_self (l : List String) (a : String) :
    (removeFirst l a).count a = l.count a - 1 := by
  induction l with
  | nil => rfl
  | cons x xs ih =>
    by_cases hx : x = a
    · subst hx
      simp [removeFirst, List.count_cons_self]
    · rw [removeFirst, if_neg hx]
      rw [List.count_cons_of_ne (fun h => hx h.symm), List.count_cons_of_ne (fun h => hx h.symm), ih]

theorem count_removeFirst_of_ne (l : List String) (a b : String) (h : b ≠ a) :
    (removeFirst l a).count b = l.count b := by
  induction l with
  | nil => rfl
  | cons x xs ih =>
    by_cases hx : x = a
    · subst hx
      rw [removeFirst, if_pos rfl, List.count_cons_of_ne h]
    · rw [removeFirst, if_neg hx]
      by_cases hb : b = x
      · subst hb
        rw [List.count_cons_self, List.count_cons_self, ih]
      · rw [List.count_cons_of_ne hb, List.count_cons_of_ne hb, ih]

theorem filter_removeFirst (p : String → Bool) (l : List String) (a : String)
    (h : p a = false) : (removeFirst l a).filter p = l.filter p := by
  induction l with
  | nil => rfl
  | cons x xs ih =>
    by_cases hx : x = a
    · subst hx
      rw [removeFirst, if_pos rfl, List.filter_cons_of_neg (by simp [h])]
    · rw [removeFirst, if_neg hx]
      by_cases hp : p x = true
      · rw [List.filter_cons_of_pos hp, List.filter_cons_of_pos hp, ih]
      · rw [List.filter_cons_of_neg hp, List.filter_cons_of_neg hp, ih]

theorem length_removeFirst (l : List String) (a : String) :
    l.length - 1 ≤ (removeFirst l a).length := by
  induction l with
  | nil => simp [removeFirst]
  | cons x xs ih =>
    by_cases hx : x = a
    · subst hx
      rw [removeFirst, if_pos rfl]
      simp
    · rw [removeFirst, if_neg hx]
      simp only [List.length_cons]
      omega

def defaultUA : String :=
  "Mozilla/5.0 (Windows NT 10.0; Win64; x64) AppleWebKit/537.36 (KHTML, like Gecko) Chrome/116.0.0.0Safari/537.36"

def gotoErrorMsg : String := "Error during page.goto()"

def typeErrMsg : String := "callable must be coroutine function."

def keyPageWidth : String := "page_width"

def keyPageHeight : String := "page_height"

def testUrl : String := "https://example.com"

/-- The six entries request() stores into the controller's _meta_data dict.
Since dict.get returns None both when a key is absent and when the stored value
is None, a field holds none exactly when the corresponding accessor returns
None. -/
structure MetaData where
  cookies : Option (List (String × String)) := none
  text : Option String := none
  status : Option Int := none
  requestH : Option Nat := none
  headers : Option (List (String × String)) := none
  script_result : Option Nat := none
deriving DecidableEq

/-- The mutable state of a PyppeteerRequest instance: _initialized (initFlag),
_enabled_interception, and the _meta_data dict. The deferred _launcher handle
is recorded as the launch options it was built from, and _browser is an opaque
handle subsumed by initFlag. -/
structure PyppeteerRequest where
  launchOptions : LaunchOptions
  initFlag : Bool := false
  enabled_interception : Bool := false
  meta_data : MetaData := {}
deriving DecidableEq

/-- PyppeteerRequest.__init__: builds the launch configuration and the initial
instance state (_initialized = False, _enabled_interception = False,
_meta_data = an empty dict). -/
def PyppeteerRequest.construct (k : InitKwargs) : PyppeteerRequest :=
  { launchOptions := PyppeteerRequest.initLaunch k }

/-- Classification of the callable argument of request(): None (absent), a
coroutine function, or a synchronous callable. Any non-None callable is truthy;
inspect.iscoroutinefunction is true exactly for the coroutine case. -/
inductive HandlerKind where
  | coroutine
  | sync
deriving DecidableEq

/-- The awaited browser and page operations request() performs, in order. Each
constructor records one call into the external pyppeteer collaborator (or one
print for the diagnostic log line). -/
inductive Effect where
  | init
  | newPage
  | setUserAgent (ua : String)
  | setViewport (width height : Int)
  | evalPretendScripts
  | setRequestInterception (value : Bool)
  | onRequestDefault
  | onRequestUser
  | goto (url : String)
  | log (msg : String)
  | sleep (seconds : Nat)
  | waitFor (selector : String)
  | evaluate (script : String)
  | closePage
  | closeBrowser
deriving DecidableEq

/-- The Python exceptions request() can raise itself: the KeyError from
kwargs.pop on a missing mandatory key and the TypeError for a non-coroutine
interception handler. -/
inductive PyErr where
  | keyError (key : String)
  | typeError (msg : String)
deriving DecidableEq

/-- The behaviour of the external browser during one render call: whether
page.goto raises pyppeteer.errors.TimeoutError, and otherwise the response
object's status, request handle and headers; plus the values page.cookies(),
page.content() and page.evaluate(script) produce. -/
structure World where
  navTimeout : Bool
  navStatus : Int
  navRequest : Option Nat
  navHeaders : List (String × String)
  cookies : List (String × String)
  content : String
  scriptResult : Nat
deriving DecidableEq

/-- The keyword arguments request() pops, with their pop defaults. page_width
and page_height are popped WITHOUT a default in the source, so the outer Option
records whether the keyword was supplied at all (none means absent, which makes
kwargs.pop raise KeyError) and the inner Option the supplied value (None or an
int). -/
structure RequestKwargs where
  delay : Option Nat := none
  wait_for : Option String := none
  page_width : Option (Option Int) := none
  page_height : Option (Option Int) := none
  pretend : Bool := true
  enabled_interception : Bool := false
  script : Option String := none
deriving DecidableEq

/-- Outcome of one request() call: the effects performed, the instance state
afterwards, and the exception propagated to the caller, if any (err = none
means the call returned a PyppeteerResponse). -/
structure ReqOutcome where
  effects : List Effect
  state : PyppeteerRequest
  err : Option PyErr
deriving DecidableEq

/-- The page operations between opening the page and arming interception:
setUserAgent (the given ua, or the built-in default), setViewport with the
resolved width and height, and the pretend scripts when enabled. -/
def setupEffects (ua : Option String) (width height : Int) (pretend : Bool) :
    List Effect :=
  [Effect.newPage, Effect.setUserAgent (ua.getD defaultUA),
    Effect.setViewport width height]
  ++ (if pretend then [Effect.evalPretendScripts] else [])

/-- The effects from navigation up to (but excluding) close: page.goto, the
diagnostic print on timeout, the optional asyncio.sleep, the optional
page.waitFor, and the optional page.evaluate. -/
def midEffects (w : World) (url : String) (kw : RequestKwargs) : List Effect :=
  [Effect.goto url]
  ++ (if w.navTimeout then [Effect.log gotoErrorMsg] else [])
  ++ (match kw.delay with
      | some d => [Effect.sleep d]
      | none => [])
  ++ (if truthyStr kw.wait_for then [Effect.waitFor (kw.wait_for.getD emptyStr)] else [])
  ++ (if truthyStr kw.script then [Effect.evaluate (kw.script.getD emptyStr)] else [])

/-- The tail of request() from page.goto on: on TimeoutError a synthetic
response object with status 504, request None and empty headers is substituted
and the error printed; then delay, wait_for and script are handled, the six
meta_data entries are assigned in place on the controller's dict, and close()
runs: page.close, browser.close, _initialized = False. -/
def finishRequest (w : World) (url : String) (kw : RequestKwargs)
    (s : PyppeteerRequest) (effs : List Effect) : ReqOutcome :=
  let respStatus : Int := if w.navTimeout then 504 else w.navStatus
  let respRequest : Option Nat := if w.navTimeout then none else w.navRequest
  let respHeaders : List (String × String) := if w.navTimeout then [] else w.navHeaders
  let md : MetaData :=
    { cookies := some w.cookies
      text := some w.content
      status := some respStatus
      requestH := respRequest
      headers := some respHeaders
      script_result := if truthyStr kw.script then some w.scriptResult else none }
  { effects := effs ++ midEffects w url kw ++ [Effect.closePage, Effect.closeBrowser]
    state := { s with meta_data := md, initFlag := false }
    err := none }

/-- The body of request() after the two mandatory pops succeeded: resolve the
viewport defaults (800 and 600 replace a supplied None), open the page, set UA,
viewport and pretend scripts, store the interception flag, then handle
interception. When it is enabled the source runs two consecutive checks:
`if not callable` attaches the default handler listener, and then
`if inspect.iscoroutinefunction(callable) ... else raise TypeError` — so a
coroutine callable attaches the user listener and navigates, a synchronous
callable raises TypeError at once, and a None callable first attaches the
default listener and then still raises TypeError (iscoroutinefunction(None) is
False). Without interception, navigation follows directly. -/
def requestBody (s : PyppeteerRequest) (w : World) (url : String)
    (ua : Option String) (callable : Option HandlerKind) (kw : RequestKwargs)
    (pw ph : Option Int) (e0 : List Effect) : ReqOutcome :=
  if kw.enabled_interception then
    match callable with
    | some HandlerKind.coroutine =>
        finishRequest w url kw
          { s with initFlag := true, enabled_interception := kw.enabled_interception }
          (e0 ++ setupEffects ua (pw.getD 800) (ph.getD 600) kw.pretend
            ++ [Effect.setRequestInterception true] ++ [Effect.onRequestUser])
    | some HandlerKind.sync =>
        { effects := e0 ++ setupEffects ua (pw.getD 800) (ph.getD 600) kw.pretend
            ++ [Effect.setRequestInterception true]
          state := { s with initFlag := true, enabled_interception := kw.enabled_interception }
          err := some (PyErr.typeError typeErrMsg) }
    | none =>
        { effects := e0 ++ setupEffects ua (pw.getD 800) (ph.getD 600) kw.pretend
            ++ [Effect.setRequestInterception true] ++ [Effect.onRequestDefault]
          state := { s with initFlag := true, enabled_interception := kw.enabled_interception }
          err := some (PyErr.typeError typeErrMsg) }
  else
    finishRequest w url kw
      { s with initFlag := true, enabled_interception := kw.enabled_interception }
      (e0 ++ setupEffects ua (pw.getD 800) (ph.getD 600) kw.pretend)

/-- PyppeteerRequest.request: init() runs first (its launch effect only when
not yet initialized), then kwargs.pop("page_width") and
kwargs.pop("page_height") — these two pops have no default, so a missing
keyword raises KeyError there, before any page exists. -/
def PyppeteerRequest.request (s : PyppeteerRequest) (w : World) (url : String)
    (ua : Option String) (callable : Option HandlerKind) (kw : RequestKwargs) :
    ReqOutcome :=
  let e0 := if s.initFlag then ([] : List Effect) else [Effect.init]
  match kw.page_width with
  | none =>
      { effects := e0, state := { s with initFlag := true },
        err := some (PyErr.keyError keyPageWidth) }
  | some pw =>
    match kw.page_height with
    | none =>
        { effects := e0, state := { s with initFlag := true },
          err := some (PyErr.keyError keyPageHeight) }
    | some ph => requestBody s w url ua callable kw pw ph e0

/-- PyppeteerResponse: its __init__ stores the dict passed as meta_data — in
request() this is the controller's own _meta_data object, not a copy, so the
response's dict is whatever the owning controller's _meta_data holds at the
time an accessor runs. -/
structure PyppeteerResponse where
  meta_data : MetaData
deriving DecidableEq

/-- The PyppeteerResponse a controller in state s presents: the response
returned by an earlier request() call on this controller aliases the
controller's _meta_data dict, so its view when the controller is in state s is
exactly s.meta_data. -/
def responseOf (s : PyppeteerRequest) : PyppeteerResponse :=
  ⟨s.meta_data⟩

def PyppeteerResponse.text (r : PyppeteerResponse) : Option String :=
  r.meta_data.text

def PyppeteerResponse.cookies (r : PyppeteerResponse) : Option (List (String × String)) :=
  r.meta_data.cookies

def PyppeteerResponse.headers (r : PyppeteerResponse) : Option (List (String × String)) :=
  r.meta_data.headers

def PyppeteerResponse.status (r : PyppeteerResponse) : Option Int :=
  r.meta_data.status

def PyppeteerResponse.request (r : PyppeteerResponse) : Option Nat :=
  r.meta_data.requestH

def PyppeteerResponse.script_result (r : PyppeteerResponse) : Option Nat :=
  r.meta_data.script_result

theorem base_count_max {args : Option (List String)}
    (h : ∀ l, args = some l → maximizeArg ∉ l) :
    (baseArgs args).count maximizeArg = 0 := by
  cases args with
  | none => decide
  | some l =>
    rw [baseArgs, List.count_append, List.count_eq_zero.mpr (h l rfl)]
    decide

theorem base_filter_ws {args : Option (List String)}
    (h : ∀ l, args = some l → ∀ s ∈ l, isWindowSizeArg s = false) :
    (baseArgs args).filter isWindowSizeArg = [] := by
  cases args with
  | none => decide
  | some l =>
    rw [baseArgs, List.filter_append]
    rw [List.filter_eq_nil_iff.mpr (fun a ha => by simp [h l rfl a ha])]
    decide

theorem maxArgs_count_max (b : List String) (em : Bool) :
    (maxArgs b em).count maximizeArg = b.count maximizeArg + (if em then 1 else 0) := by
  cases em <;> simp [maxArgs, List.count_append]

theorem maxArgs_filter_ws (b : List String) (em : Bool) :
    (maxArgs b em).filter isWindowSizeArg = b.filter isWindowSizeArg := by
  cases em with
  | false => rfl
  | true =>
    rw [maxArgs, if_pos rfl, List.filter_append]
    have : List.filter isWindowSizeArg [maximizeArg] = [] := by decide
    rw [this, List.append_nil]

theorem maxArgs_count_info (b : List String) (em : Bool) :
    (maxArgs b em).count infobarsArg = b.count infobarsArg := by
  cases em with
  | false => rfl
  | true =>
    rw [maxArgs, if_pos rfl, List.count_append]
    have : List.count infobarsArg [maximizeArg] = 0 := by decide
    rw [this, Nat.add_zero]

theorem maxArgs_length (b : List String) (em : Bool) :
    b.length ≤ (maxArgs b em).length := by
  cases em <;> simp [maxArgs]

theorem ws_not_mem_singleton (a : String) (w h : String)
    (ha : isWindowSizeArg a = false) : a ∉ [windowSizeArg w h] := by
  intro hmem
  exact ne_of_ws (isWindowSizeArg_format w h) ha (List.mem_singleton.mp hmem).symm

def numW : String := "800"

def numH : String := "600"

/-- C7: the claim quantifies over every launch configuration, including
caller-supplied args lists that already contain a maximize argument; there the
invariant breaks, because list.remove drops only the first --start-maximized
occurrence. With args = ["--start-maximized"], enabled_maximize left at its
default True, and window_width/window_height both set, the final list is
["--disable-infobars", "--start-maximized", "--window-size=800,600"]: it
contains both a window-size argument and a maximize argument. -/
theorem C7_counterexample :
    buildArgs (some [maximizeArg]) true (some numW) (some numH) =
      [infobarsArg, maximizeArg, windowSizeArg numW numH]
    ∧ maximizeArg ∈ buildArgs (some [maximizeArg]) true (some numW) (some numH)
    ∧ (∃ s ∈ buildArgs (some [maximizeArg]) true (some numW) (some numH),
        isWindowSizeArg s = true) := by
  refine ⟨by decide, by decide, ⟨windowSizeArg numW numH, by decide, by decide⟩⟩

/-- C7 (amended): the mutual-exclusion invariant holds for every launch
configuration whose caller-supplied args list (when present) contains no
--start-maximized entry and no window-size argument of its own: the final
launch-argument list of PyppeteerRequest.__init__ never contains both a
window-size argument and a maximize argument, and whenever window_width and
window_height are both set (truthy) it contains exactly one window-size
argument — the one formatted from those values — and no --start-maximized. -/
theorem C7_window_size_maximize_exclusive (args : Option (List String))
    (em : Bool) (ww wh : Option String)
    (hargs : ∀ l, args = some l →
      maximizeArg ∉ l ∧ ∀ s ∈ l, isWindowSizeArg s = false) :
    (¬ ((∃ s ∈ buildArgs args em ww wh, isWindowSizeArg s = true)
        ∧ maximizeArg ∈ buildArgs args em ww wh))
    ∧ (truthyStr ww = true → truthyStr wh = true →
        (buildArgs args em ww wh).filter isWindowSizeArg =
          [windowSizeArg (ww.getD emptyStr) (wh.getD emptyStr)]
        ∧ maximizeArg ∉ buildArgs args em ww wh) := by
  have hbmax : (baseArgs args).count maximizeArg = 0 :=
    base_count_max (fun l hl => (hargs l hl).1)
  have hbws : (baseArgs args).filter isWindowSizeArg = [] :=
    base_filter_ws (fun l hl => (hargs l hl).2)
  by_cases hc : (truthyStr ww && truthyStr wh) = true
  · have hbuild : buildArgs args em ww wh =
        removeFirst (maxArgs (baseArgs args) em
          ++ [windowSizeArg (ww.getD emptyStr) (wh.getD emptyStr)]) maximizeArg := by
      rw [buildArgs, if_pos hc]
    have hmaxnot : maximizeArg ∉ buildArgs args em ww wh := by
      rw [hbuild]
      apply List.count_eq_zero.mp
      rw [count_removeFirst_self, List.count_append, maxArgs_count_max, hbmax]
      have h1 : List.count maximizeArg
          [windowSizeArg (ww.getD emptyStr) (wh.getD emptyStr)] = 0 :=
        List.count_eq_zero.mpr (ws_not_mem_singleton maximizeArg _ _ isWindowSizeArg_maximize)
      rw [h1]
      cases em <;> simp
    have hfilter : (buildArgs args em ww wh).filter isWindowSizeArg =
        [windowSizeArg (ww.getD emptyStr) (wh.getD emptyStr)] := by
      rw [hbuild, filter_removeFirst _ _ _ isWindowSizeArg_maximize,
        List.filter_append, maxArgs_filter_ws, hbws]
      simp [List.filter_cons, isWindowSizeArg_format]
    exact ⟨fun h => hmaxnot h.2, fun _ _ => ⟨hfilter, hmaxnot⟩⟩
  · have hbuild : buildArgs args em ww wh = maxArgs (baseArgs args) em := by
      rw [buildArgs, if_neg hc]
    have hnows : ∀ s ∈ buildArgs args em ww wh, isWindowSizeArg s = false := by
      rw [hbuild]
      intro s hs
      have hfil : (maxArgs (baseArgs args) em).filter isWindowSizeArg = [] := by
        rw [maxArgs_filter_ws, hbws]
      by_contra hcon
      have hmem : s ∈ (maxArgs (baseArgs args) em).filter isWindowSizeArg :=
        List.mem_filter.mpr ⟨hs, by simpa using hcon⟩
      rw [hfil] at hmem
      cases hmem
    constructor
    · rintro ⟨⟨s, hs, hws⟩, _⟩
      rw [hnows s hs] at hws
      cases hws
    · intro hww hwh
      rw [hww, hwh] at hc
      simp at hc

/-- C7 witness: a configuration with no caller args and both window sizes set,
evaluated concretely. -/
theorem C7_window_size_maximize_exclusive_witness :
    (∀ l, (none : Option (List String)) = some l →
      maximizeArg ∉ l ∧ ∀ s ∈ l, isWindowSizeArg s = false)
    ∧ ((buildArgs none true (some numW) (some numH)).filter isWindowSizeArg =
          [windowSizeArg numW numH]
        ∧ maximizeArg ∉ buildArgs none true (some numW) (some numH)) :=
  ⟨fun _ hl => Option.noConfusion hl,
   (C7_window_size_maximize_exclusive none true (some numW) (some numH)
      (fun _ hl => Option.noConfusion hl)).2 (by decide) (by decide)⟩

/-- C8: the claim fails for caller-supplied args lists that already contain
--disable-infobars, because __init__ appends the flag unconditionally. With
args = ["--disable-infobars"] and everything else at its default, the final
list contains the flag twice. -/
theorem C8_counterexample :
    (buildArgs (some [infobarsArg]) true none none).count infobarsArg = 2
    ∧ (buildArgs (some [infobarsArg]) true none none).count infobarsArg ≠ 1 :=
  ⟨by decide, by decide⟩

/-- C8 (amended): for every launch configuration whose caller-supplied args
list (when present) does not itself contain --disable-infobars, the flag
appears in the final launch-argument list exactly once, regardless of the
headless, maximize and window-size settings. -/
theorem C8_infobars_once (args : Option (List String)) (em : Bool)
    (ww wh : Option String) (hargs : ∀ l, args = some l → infobarsArg ∉ l) :
    (buildArgs args em ww wh).count infobarsArg = 1 := by
  have hbase : (baseArgs args).count infobarsArg = 1 := by
    cases args with
    | none => decide
    | some l =>
      rw [baseArgs, List.count_append, List.count_eq_zero.mpr (hargs l rfl)]
      decide
  by_cases hc : (truthyStr ww && truthyStr wh) = true
  · rw [buildArgs, if_pos hc,
      count_removeFirst_of_ne _ _ _ (by decide : infobarsArg ≠ maximizeArg),
      List.count_append, maxArgs_count_info, hbase]
    have h0 : List.count infobarsArg
        [windowSizeArg (ww.getD emptyStr) (wh.getD emptyStr)] = 0 :=
      List.count_eq_zero.mpr (ws_not_mem_singleton infobarsArg _ _ isWindowSizeArg_infobars)
    rw [h0]
  · rw [buildArgs, if_neg hc, maxArgs_count_info, hbase]

/-- C8 witness: a maximal-variety configuration (maximize on, window sizes set,
no caller args) evaluated concretely. -/
theorem C8_infobars_once_witness :
    (∀ l, (none : Option (List String)) = some l → infobarsArg ∉ l)
    ∧ (buildArgs none true (some numW) (some numH)).count infobarsArg = 1 :=
  ⟨fun _ hl => Option.noConfusion hl,
   C8_infobars_once none true (some numW) (some numH) (fun _ hl => Option.noConfusion hl)⟩

/-- C9: constructing the controller with a truthy headless always yields a
launch configuration with autoClose true, even when the caller explicitly
passed auto_close = False — __init__ overwrites auto_close before building the
launch call. -/
theorem C9_headless_forces_autoclose (k : InitKwargs) (h : k.headless = true) :
    (PyppeteerRequest.construct k).launchOptions.autoClose = true := by
  simp [PyppeteerRequest.construct, PyppeteerRequest.initLaunch, h]

/-- C9 witness: headless true with auto_close explicitly false. -/
theorem C9_headless_forces_autoclose_witness :
    ({ headless := true, auto_close := false } : InitKwargs).headless = true
    ∧ (PyppeteerRequest.construct
        { headless := true, auto_close := false }).launchOptions.autoClose = true :=
  ⟨rfl, C9_headless_forces_autoclose
    ({ headless := true, auto_close := false } : InitKwargs) rfl⟩

/-- C10: __init__ mutates a caller-supplied args list in place — args.append
and args.remove act on the caller's very list object, so after construction the
caller's list holds buildArgs (some l) em ww wh. That value always differs from
the original list: it is strictly longer and carries one more
--disable-infobars occurrence (plus, depending on configuration, a maximize
and/or window-size argument, with a pre-existing --start-maximized possibly
removed). -/
theorem C10_caller_args_mutated (l : List String) (em : Bool)
    (ww wh : Option String) :
    buildArgs (some l) em ww wh ≠ l
    ∧ l.length < (buildArgs (some l) em ww wh).length
    ∧ (buildArgs (some l) em ww wh).count infobarsArg = l.count infobarsArg + 1 := by
  have hlen : l.length < (buildArgs (some l) em ww wh).length := by
    by_cases hc : (truthyStr ww && truthyStr wh) = true
    · rw [buildArgs, if_pos hc]
      have h1 := length_removeFirst
        (maxArgs (baseArgs (some l)) em
          ++ [windowSizeArg (ww.getD emptyStr) (wh.getD emptyStr)]) maximizeArg
      have h2 : (baseArgs (some l)).length = l.length + 1 := by simp [baseArgs]
      have h3 := maxArgs_length (baseArgs (some l)) em
      rw [List.length_append] at h1
      simp only [List.length_singleton] at h1
      omega
    · rw [buildArgs, if_neg hc]
      have h2 : (baseArgs (some l)).length = l.length + 1 := by simp [baseArgs]
      have h3 := maxArgs_length (baseArgs (some l)) em
      omega
  have hcount : (buildArgs (some l) em ww wh).count infobarsArg =
      l.count infobarsArg + 1 := by
    have hbase : (baseArgs (some l)).count infobarsArg = l.count infobarsArg + 1 := by
      rw [baseArgs, List.count_append]
      have h1 : List.count infobarsArg [infobarsArg] = 1 := by decide
      rw [h1]
    by_cases hc : (truthyStr ww && truthyStr wh) = true
    · rw [buildArgs, if_pos hc,
        count_removeFirst_of_ne _ _ _ (by decide : infobarsArg ≠ maximizeArg),
        List.count_append, maxArgs_count_info, hbase]
      have h0 : List.count infobarsArg
          [windowSizeArg (ww.getD emptyStr) (wh.getD emptyStr)] = 0 :=
        List.count_eq_zero.mpr (ws_not_mem_singleton infobarsArg _ _ isWindowSizeArg_infobars)
      rw [h0]
    · rw [buildArgs, if_neg hc, maxArgs_count_info, hbase]
  refine ⟨?_, hlen, hcount⟩
  intro heq
  rw [heq] at hlen
  exact Nat.lt_irrefl _ hlen

theorem notMemAppend {α : Type} {a : α} {l1 l2 : List α} (h1 : a ∉ l1)
    (h2 : a ∉ l2) : a ∉ l1 ++ l2 := by
  intro hmem
  rcases List.mem_append.mp hmem with h | h
  · exact h1 h
  · exact h2 h

theorem setup_no_close (ua : Option String) (width height : Int) (p : Bool) :
    Effect.closePage ∉ setupEffects ua width height p
    ∧ Effect.closeBrowser ∉ setupEffects ua width height p := by
  cases p <;> simp [setupEffects]

theorem setup_no_goto (ua : Option String) (width height : Int) (p : Bool)
    (u : String) : Effect.goto u ∉ setupEffects ua width height p := by
  cases p <;> simp [setupEffects]

theorem e0_no_close (b : Bool) :
    Effect.closePage ∉ (if b then ([] : List Effect) else [Effect.init])
    ∧ Effect.closeBrowser ∉ (if b then ([] : List Effect) else [Effect.init]) := by
  cases b <;> simp

theorem e0_no_goto (b : Bool) (u : String) :
    Effect.goto u ∉ (if b then ([] : List Effect) else [Effect.init]) := by
  cases b <;> simp

theorem mid_no_close (w : World) (url : String) (kw : RequestKwargs) :
    Effect.closePage ∉ midEffects w url kw
    ∧ Effect.closeBrowser ∉ midEffects w url kw := by
  unfold midEffects
  cases hnav : w.navTimeout <;> cases hd : kw.delay <;>
    cases hwf : truthyStr kw.wait_for <;> cases hs : truthyStr kw.script <;> simp

theorem finishRequest_err (w : World) (url : String) (kw : RequestKwargs)
    (s : PyppeteerRequest) (effs : List Effect) :
    (finishRequest w url kw s effs).err = none := rfl

theorem finishRequest_initFlag (w : World) (url : String) (kw : RequestKwargs)
    (s : PyppeteerRequest) (effs : List Effect) :
    (finishRequest w url kw s effs).state.initFlag = false := rfl

theorem finishRequest_effects (w : World) (url : String) (kw : RequestKwargs)
    (s : PyppeteerRequest) (effs : List Effect) :
    (finishRequest w url kw s effs).effects =
      (effs ++ midEffects w url kw) ++ [Effect.closePage, Effect.closeBrowser] := rfl

theorem finishRequest_meta (w : World) (url : String) (kw : RequestKwargs)
    (s : PyppeteerRequest) (effs : List Effect) :
    (finishRequest w url kw s effs).state.meta_data =
      { cookies := some w.cookies
        text := some w.content
        status := some (if w.navTimeout then 504 else w.navStatus)
        requestH := if w.navTimeout then none else w.navRequest
        headers := some (if w.navTimeout then [] else w.navHeaders)
        script_result := if truthyStr kw.script then some w.scriptResult else none } := rfl

theorem request_eq_body {kw : RequestKwargs} (s : PyppeteerRequest) (w : World)
    (url : String) (ua : Option String) (callable : Option HandlerKind)
    {pw ph : Option Int} (hw : kw.page_width = some pw)
    (hh : kw.page_height = some ph) :
    PyppeteerRequest.request s w url ua callable kw =
      requestBody s w url ua callable kw pw ph
        (if s.initFlag then ([] : List Effect) else [Effect.init]) := by
  unfold PyppeteerRequest.request
  rw [hw, hh]

theorem request_ok_shape {kw : RequestKwargs} (s : PyppeteerRequest) (w : World)
    (url : String) (ua : Option String) (callable : Option HandlerKind)
    {pw ph : Option Int} (hw : kw.page_width = some pw)
    (hh : kw.page_height = some ph)
    (hcase : kw.enabled_interception = false ∨ callable = some HandlerKind.coroutine) :
    ∃ effs, Effect.closePage ∉ effs ∧ Effect.closeBrowser ∉ effs ∧
      PyppeteerRequest.request s w url ua callable kw =
        finishRequest w url kw
          { s with
            initFlag := true
            enabled_interception := kw.enabled_interception } effs := by
  rw [request_eq_body s w url ua callable hw hh]
  have hbase1 : Effect.closePage ∉
      (if s.initFlag then ([] : List Effect) else [Effect.init]) ++
        setupEffects ua (pw.getD 800) (ph.getD 600) kw.pretend :=
    notMemAppend (e0_no_close s.initFlag).1 (setup_no_close ua _ _ kw.pretend).1
  have hbase2 : Effect.closeBrowser ∉
      (if s.initFlag then ([] : List Effect) else [Effect.init]) ++
        setupEffects ua (pw.getD 800) (ph.getD 600) kw.pretend :=
    notMemAppend (e0_no_close s.initFlag).2 (setup_no_close ua _ _ kw.pretend).2
  rcases hcase with hi | hc
  · refine ⟨_, hbase1, hbase2, ?_⟩
    unfold requestBody
    rw [hi]
    rfl
  · subst hc
    by_cases hi : kw.enabled_interception = true
    · refine ⟨(if s.initFlag then ([] : List Effect) else [Effect.init]) ++
        setupEffects ua (pw.getD 800) (ph.getD 600) kw.pretend
        ++ [Effect.setRequestInterception true] ++ [Effect.onRequestUser],
        ?_, ?_, ?_⟩
      · exact notMemAppend (notMemAppend hbase1 (by simp)) (by simp)
      · exact notMemAppend (notMemAppend hbase2 (by simp)) (by simp)
      · unfold requestBody
        rw [hi]
        rfl
    · have hif : kw.enabled_interception = false := by
        revert hi
        cases kw.enabled_interception <;> simp
      refine ⟨_, hbase1, hbase2, ?_⟩
      unfold requestBody
      rw [hif]
      rfl

/-- A normal navigation outcome: no timeout, status 200, a request handle,
empty headers and cookies. -/
def wOk : World :=
  { navTimeout := false
    navStatus := 200
    navRequest := some 1
    navHeaders := []
    cookies := []
    content := emptyStr
    scriptResult := 0 }

/-- The same world except that page.goto raises TimeoutError. -/
def wTimeout : World := { wOk with navTimeout := true }

/-- request() keyword arguments with page_width and page_height supplied as
None and everything else left to its pop default. -/
def kwDefaults : RequestKwargs := { page_width := some none, page_height := some none }

/-- Like kwDefaults but with enabled_interception = True. -/
def kwInterception : RequestKwargs :=
  { page_width := some none, page_height := some none, enabled_interception := true }

/-- request() keyword arguments with the page_width / page_height keywords not
supplied at all. -/
def kwMissingWidth : RequestKwargs := {}

/-- C1 (code bug): with interception enabled and no handler supplied
(callable = None), request() attaches the default handler listener — the
`if not callable` branch — but then still raises
TypeError("callable must be coroutine function."), because
inspect.iscoroutinefunction(None) is False and the second check has no guard
for the None case. The render never reaches page.goto, contradicting the claim
and the source's own docstring ("未提供则使用默认实现" — the default
implementation is used when callable is not provided). The failing run's
effect trace is computed exactly: it ends at the default-listener attachment. -/
theorem C1_default_handler_type_error :
    (PyppeteerRequest.request (PyppeteerRequest.construct {}) wOk testUrl
        none none kwInterception).effects =
      [Effect.init, Effect.newPage, Effect.setUserAgent defaultUA,
        Effect.setViewport 800 600, Effect.evalPretendScripts,
        Effect.setRequestInterception true, Effect.onRequestDefault]
    ∧ (PyppeteerRequest.request (PyppeteerRequest.construct {}) wOk testUrl
        none none kwInterception).err = some (PyErr.typeError typeErrMsg) :=
  ⟨by decide, by decide⟩

/-- C3 (code bug): request() pops page_width and page_height without a pop
default, so a call that omits those keywords raises KeyError("page_width")
before any page is opened — while a call that supplies them as None succeeds
and sets the viewport to 800 by 600, the defaults the claim (and the spec)
describe for both cases. -/
theorem C3_viewport_default_key_error :
    (PyppeteerRequest.request (PyppeteerRequest.construct {}) wOk testUrl
        none none kwMissingWidth).err = some (PyErr.keyError keyPageWidth)
    ∧ (PyppeteerRequest.request (PyppeteerRequest.construct {}) wOk testUrl
        none none kwDefaults).err = none
    ∧ Effect.setViewport 800 600 ∈
        (PyppeteerRequest.request (PyppeteerRequest.construct {}) wOk testUrl
          none none kwDefaults).effects :=
  ⟨by decide, by decide, by decide⟩

/-- C6: if interception is enabled and the supplied interception handler is a
synchronous (non-coroutine) callable, request() raises
TypeError("callable must be coroutine function.") before navigation starts:
the outcome carries that error and the effect trace contains no page.goto
call. -/
theorem C6_sync_handler_type_error (s : PyppeteerRequest) (w : World)
    (url : String) (ua : Option String) (kw : RequestKwargs)
    {pw ph : Option Int} (hw : kw.page_width = some pw)
    (hh : kw.page_height = some ph) (hi : kw.enabled_interception = true) :
    (PyppeteerRequest.request s w url ua (some HandlerKind.sync) kw).err =
      some (PyErr.typeError typeErrMsg)
    ∧ Effect.goto url ∉
        (PyppeteerRequest.request s w url ua (some HandlerKind.sync) kw).effects := by
  rw [request_eq_body s w url ua (some HandlerKind.sync) hw hh]
  unfold requestBody
  rw [hi]
  constructor
  · rfl
  · show Effect.goto url ∉
      (if s.initFlag then ([] : List Effect) else [Effect.init]) ++
        setupEffects ua (pw.getD 800) (ph.getD 600) kw.pretend ++
        [Effect.setRequestInterception true]
    exact notMemAppend
      (notMemAppend (e0_no_goto s.initFlag url) (setup_no_goto ua _ _ kw.pretend url))
      (by simp)

/-- C6 witness: a synchronous handler with interception enabled at a concrete
configuration. -/
theorem C6_sync_handler_type_error_witness :
    kwInterception.page_width = some none
    ∧ kwInterception.page_height = some none
    ∧ kwInterception.enabled_interception = true
    ∧ ((PyppeteerRequest.request (PyppeteerRequest.construct {}) wOk testUrl
          none (some HandlerKind.sync) kwInterception).err =
        some (PyErr.typeError typeErrMsg)
      ∧ Effect.goto testUrl ∉
          (PyppeteerRequest.request (PyppeteerRequest.construct {}) wOk testUrl
            none (some HandlerKind.sync) kwInterception).effects) :=
  ⟨rfl, rfl, rfl,
    C6_sync_handler_type_error (PyppeteerRequest.construct {}) wOk testUrl
      none kwInterception rfl rfl rfl⟩

/-- C4: on every code path of request() that reaches past navigation — every
run with both viewport keywords supplied and either interception disabled or a
coroutine handler, i.e. every run not ending in the pre-navigation KeyError or
TypeError — close(page) runs exactly once: the effect trace ends with
page.close immediately followed by browser.close, neither occurring anywhere
earlier, and the state afterwards has _initialized = False. The quantification
over World and RequestKwargs covers the normal path, the navigation-timeout
path, and the optional delay, wait-condition and script-evaluation paths. -/
theorem C4_close_exactly_once (s : PyppeteerRequest) (w : World) (url : String)
    (ua : Option String) (callable : Option HandlerKind) (kw : RequestKwargs)
    {pw ph : Option Int} (hw : kw.page_width = some pw)
    (hh : kw.page_height = some ph)
    (hcase : kw.enabled_interception = false ∨ callable = some HandlerKind.coroutine) :
    (∃ pre, (PyppeteerRequest.request s w url ua callable kw).effects =
        pre ++ [Effect.closePage, Effect.closeBrowser]
      ∧ Effect.closePage ∉ pre ∧ Effect.closeBrowser ∉ pre)
    ∧ (PyppeteerRequest.request s w url ua callable kw).state.initFlag = false := by
  obtain ⟨effs, h1, h2, heq⟩ := request_ok_shape s w url ua callable hw hh hcase
  rw [heq]
  constructor
  · exact ⟨effs ++ midEffects w url kw, finishRequest_effects w url kw _ effs,
      notMemAppend h1 (mid_no_close w url kw).1,
      notMemAppend h2 (mid_no_close w url kw).2⟩
  · exact finishRequest_initFlag w url kw _ effs

/-- request() keyword arguments exercising every optional path at once: both
viewport keywords supplied as None, a delay, a wait-condition and a script. -/
def kwAllPaths : RequestKwargs :=
  { page_width := some none
    page_height := some none
    delay := some 2
    wait_for := some commaStr
    script := some commaStr }

/-- C4 witness: a concrete run through the timeout path with a delay, a
wait-condition and a script, so all optional paths are exercised. -/
theorem C4_close_exactly_once_witness :
    kwAllPaths.page_width = some none
    ∧ kwAllPaths.page_height = some none
    ∧ (kwAllPaths.enabled_interception = false
        ∨ (none : Option HandlerKind) = some HandlerKind.coroutine)
    ∧ ((∃ pre, (PyppeteerRequest.request (PyppeteerRequest.construct {}) wTimeout
          testUrl none none kwAllPaths).effects =
          pre ++ [Effect.closePage, Effect.closeBrowser]
        ∧ Effect.closePage ∉ pre ∧ Effect.closeBrowser ∉ pre)
      ∧ (PyppeteerRequest.request (PyppeteerRequest.construct {}) wTimeout
          testUrl none none kwAllPaths).state.initFlag = false) :=
  ⟨rfl, rfl, Or.inl rfl,
    C4_close_exactly_once (PyppeteerRequest.construct {}) wTimeout testUrl
      none none kwAllPaths rfl rfl (Or.inl rfl)⟩

/-- C5: when navigation hits the fixed 30-second timeout, request() does not
propagate the error: the outcome has err = none, the returned holder (the view
over the harvested meta_data) reports the synthetic status 504, a None request
and empty headers, and the error surfaces only as the diagnostic print after
page.goto. -/
theorem C5_timeout_synthetic_response (s : PyppeteerRequest) (w : World)
    (url : String) (ua : Option String) (callable : Option HandlerKind)
    (kw : RequestKwargs) {pw ph : Option Int} (hw : kw.page_width = some pw)
    (hh : kw.page_height = some ph)
    (hcase : kw.enabled_interception = false ∨ callable = some HandlerKind.coroutine)
    (ht : w.navTimeout = true) :
    (PyppeteerRequest.request s w url ua callable kw).err = none
    ∧ (responseOf (PyppeteerRequest.request s w url ua callable kw).state).status =
        some 504
    ∧ (responseOf (PyppeteerRequest.request s w url ua callable kw).state).request =
        none
    ∧ (responseOf (PyppeteerRequest.request s w url ua callable kw).state).headers =
        some []
    ∧ Effect.log gotoErrorMsg ∈
        (PyppeteerRequest.request s w url ua callable kw).effects := by
  obtain ⟨effs, h1, h2, heq⟩ := request_ok_shape s w url ua callable hw hh hcase
  rw [heq]
  refine ⟨finishRequest_err w url kw _ effs, ?_, ?_, ?_, ?_⟩
  · simp [responseOf, PyppeteerResponse.status, finishRequest_meta, ht]
  · simp [responseOf, PyppeteerResponse.request, finishRequest_meta, ht]
  · simp [responseOf, PyppeteerResponse.headers, finishRequest_meta, ht]
  · rw [finishRequest_effects]
    refine List.mem_append.mpr (Or.inl (List.mem_append.mpr (Or.inr ?_)))
    simp [midEffects, ht]

/-- C5 witness: a concrete timeout run. -/
theorem C5_timeout_synthetic_response_witness :
    kwDefaults.page_width = some none
    ∧ kwDefaults.page_height = some none
    ∧ (kwDefaults.enabled_interception = false
        ∨ (none : Option HandlerKind) = some HandlerKind.coroutine)
    ∧ wTimeout.navTimeout = true
    ∧ ((PyppeteerRequest.request (PyppeteerRequest.construct {}) wTimeout testUrl
          none none kwDefaults).err = none
      ∧ (responseOf (PyppeteerRequest.request (PyppeteerRequest.construct {})
          wTimeout testUrl none none kwDefaults).state).status = some 504
      ∧ (responseOf (PyppeteerRequest.request (PyppeteerRequest.construct {})
          wTimeout testUrl none none kwDefaults).state).request = none
      ∧ (responseOf (PyppeteerRequest.request (PyppeteerRequest.construct {})
          wTimeout testUrl none none kwDefaults).state).headers = some []
      ∧ Effect.log gotoErrorMsg ∈
          (PyppeteerRequest.request (PyppeteerRequest.construct {}) wTimeout
            testUrl none none kwDefaults).effects) :=
  ⟨rfl, rfl, Or.inl rfl, rfl,
    C5_timeout_synthetic_response (PyppeteerRequest.construct {}) wTimeout
      testUrl none none kwDefaults rfl rfl (Or.inl rfl) rfl⟩

/-- C2 (counterexample): a PyppeteerResponse is NOT immutable under further
operations on the same controller, because request() hands the response the
controller's _meta_data dict itself (not a copy) and overwrites that dict's
entries in place on every call. Concretely: a first request() under a normal
navigation (status 200) yields a response whose status accessor returns 200;
after a second request() on the same controller that times out, the same
aliased response view — responseOf of the controller's state — returns 504. -/
theorem C2_counterexample :
    (responseOf (PyppeteerRequest.request (PyppeteerRequest.construct {}) wOk
        testUrl none none kwDefaults).state).status = some 200
    ∧ (responseOf (PyppeteerRequest.request
        (PyppeteerRequest.request (PyppeteerRequest.construct {}) wOk testUrl
          none none kwDefaults).state
        wTimeout testUrl none none kwDefaults).state).status = some 504
    ∧ (PyppeteerRequest.request
        (PyppeteerRequest.request (PyppeteerRequest.construct {}) wOk testUrl
          none none kwDefaults).state
        wTimeout testUrl none none kwDefaults).err = none :=
  ⟨by decide, by decide, by decide⟩

/-- C2 (amended): the PyppeteerResponse accessors are read-only projections of
the controller's shared _meta_data dict, so the values captured at construction
persist only until the next request() call on the same controller: every
successful request() — whatever the controller's previous state — overwrites
all six entries with the values it harvests, fully determined by that call's
world and keyword arguments. -/
theorem C2_meta_overwritten (s : PyppeteerRequest) (w : World) (url : String)
    (ua : Option String) (callable : Option HandlerKind) (kw : RequestKwargs)
    {pw ph : Option Int} (hw : kw.page_width = some pw)
    (hh : kw.page_height = some ph)
    (hcase : kw.enabled_interception = false ∨ callable = some HandlerKind.coroutine) :
    (PyppeteerRequest.request s w url ua callable kw).err = none
    ∧ (PyppeteerRequest.request s w url ua callable kw).state.meta_data =
      { cookies := some w.cookies
        text := some w.content
        status := some (if w.navTimeout then 504 else w.navStatus)
        requestH := if w.navTimeout then none else w.navRequest
        headers := some (if w.navTimeout then [] else w.navHeaders)
        script_result := if truthyStr kw.script then some w.scriptResult else none } := by
  obtain ⟨effs, h1, h2, heq⟩ := request_ok_shape s w url ua callable hw hh hcase
  rw [heq]
  exact ⟨finishRequest_err w url kw _ effs, finishRequest_meta w url kw _ effs⟩

/-- C2 witness: a second call on an already-used controller, evaluated
concretely — the meta_data holds exactly the second call's harvest. -/
theorem C2_meta_overwritten_witness :
    kwDefaults.page_width = some none
    ∧ kwDefaults.page_height = some none
    ∧ (kwDefaults.enabled_interception = false
        ∨ (none : Option HandlerKind) = some HandlerKind.coroutine)
    ∧ ((PyppeteerRequest.request
          (PyppeteerRequest.request (PyppeteerRequest.construct {}) wOk testUrl
            none none kwDefaults).state
          wTimeout testUrl none none kwDefaults).err = none
      ∧ (PyppeteerRequest.request
          (PyppeteerRequest.request (PyppeteerRequest.construct {}) wOk testUrl
            none none kwDefaults).state
          wTimeout testUrl none none kwDefaults).state.meta_data =
        { cookies := some wTimeout.cookies
          text := some wTimeout.content
          status := some (if wTimeout.navTimeout then 504 else wTimeout.navStatus)
          requestH := if wTimeout.navTimeout then none else wTimeout.navRequest
          headers := some (if wTimeout.navTimeout then [] else wTimeout.navHeaders)
          script_result :=
            if truthyStr kwDefaults.script then some wTimeout.scriptResult else none }) :=
  ⟨rfl, rfl, Or.inl rfl,
    C2_meta_overwritten
      (PyppeteerRequest.request (PyppeteerRequest.construct {}) wOk testUrl
        none none kwDefaults).state
      wTimeout testUrl none none kwDefaults rfl rfl (Or.inl rfl)⟩
